import Mathlib

/-!
Shallow embedding of `src/wan2_6_i2v/wan_video.py`: an asynchronous
video-generation client that submits a job, polls for completion and
downloads the resulting artifact.

Modelling conventions:
- a JSON API response is an `ApiResponse`: an optional `output` object whose
  fields (`task_status`, `task_id`, `video_url`, `message`) may each be absent;
- `requests.post` / `requests.get` during submission and polling are an
  oracle `FetchResult` (a parsed response, or a raised transport exception);
  the polling loop consumes a finite script, one element per fetch;
- Python truthiness of an optional string (`if x:`) is `isTruthy`;
- a raised exception is an `Except.error` / `RunOutcome.raised` carrying the
  message of the exception;
- the filesystem visible to `os.makedirs` is the list of existing
  directories; `datetime.now().strftime` is a `timestamp` parameter.
-/

namespace WanVideo

instance {ε α : Type} [DecidableEq ε] [DecidableEq α] : DecidableEq (Except ε α) :=
  fun a b =>
    match a, b with
    | .ok x, .ok y =>
      if h : x = y then .isTrue (congrArg Except.ok h)
      else .isFalse (fun hc => h (Except.ok.inj hc))
    | .error x, .error y =>
      if h : x = y then .isTrue (congrArg Except.error h)
      else .isFalse (fun hc => h (Except.error.inj hc))
    | .ok _, .error _ => .isFalse (fun hc => Except.noConfusion hc)
    | .error _, .ok _ => .isFalse (fun hc => Except.noConfusion hc)

/-- Fixed service base URL (wan_video.py line 14). -/
def API_BASE_URL : String := "https://dashscope-intl.aliyuncs.com/api/v1"

/-- Truthiness of an optional string, as Python evaluates `if x:` for an
`Optional[str]`: `None` and the empty string are falsy, everything else is
truthy. -/
def isTruthy : Option String → Bool
  | none => false
  | some s => !(s == "")

/-- Fields of the `output` object of an API response; each may be absent. -/
structure Output where
  task_status : Option String
  task_id : Option String
  video_url : Option String
  message : Option String
  deriving DecidableEq, Repr

/-- Empty JSON object used by `result.get("output", {})`. -/
def emptyOutput : Output :=
  { task_status := none, task_id := none, video_url := none, message := none }

/-- Parsed JSON body of an API response: an optional `output` object. -/
structure ApiResponse where
  output : Option Output
  deriving DecidableEq, Repr

/-- Python `result.get("output", {})`. -/
def getOutput (r : ApiResponse) : Output := r.output.getD emptyOutput

/-- Python `result.get("output", {}).get("task_status", "UNKNOWN")`, the
status string the polling loop inspects (wan_video.py lines 150-151). -/
def statusOf (r : ApiResponse) : String := (getOutput r).task_status.getD "UNKNOWN"

/-- Module-level configuration read from the environment
(wan_video.py lines 17-25). `WAN_AUDIO` is read by the module but used
nowhere, so it is omitted. -/
structure Config where
  WAN_MODEL_I2V : String
  WAN_MODEL_T2V : String
  WAN_RESOLUTION : String
  WAN_SIZE : String
  WAN_DURATION : Int
  WAN_PROMPT_EXTEND : Bool
  WAN_SHOT_TYPE : String
  WAN_OUTPUT_DIR : String
  deriving DecidableEq, Repr

/-- Default values of the configuration variables (wan_video.py lines 17-25). -/
def defaultConfig : Config :=
  { WAN_MODEL_I2V := "wan2.6-i2v"
    WAN_MODEL_T2V := "wan2.6-t2v"
    WAN_RESOLUTION := "720P"
    WAN_SIZE := "1280*720"
    WAN_DURATION := 10
    WAN_PROMPT_EXTEND := true
    WAN_SHOT_TYPE := "single"
    WAN_OUTPUT_DIR := "./output" }

/-- The `parameters` object of a submission payload. Exactly one of
`resolution` (I2V) and `size` (T2V) is present. -/
structure Params where
  resolution : Option String
  size : Option String
  prompt_extend : Bool
  duration : Int
  shot_type : String
  deriving DecidableEq, Repr

/-- The `input` object of a submission payload; `img_url` is present exactly
in I2V mode. -/
structure PayloadInput where
  prompt : String
  img_url : Option String
  deriving DecidableEq, Repr

/-- A submission request body (wan_video.py lines 74-101). -/
structure Payload where
  model : String
  input : PayloadInput
  parameters : Params
  deriving DecidableEq, Repr

/-- Spec §3 generation mode of a job specification. -/
inductive Mode
  | TextToMedia
  | MediaToMedia
  deriving DecidableEq, Repr

/-- Mode a built payload is in, read off its shape: `MediaToMedia` exactly
when the payload carries an `input.img_url` field. -/
def payloadMode (p : Payload) : Mode :=
  if p.input.img_url.isSome then Mode.MediaToMedia else Mode.TextToMedia

/-- The I2V payload built at wan_video.py lines 74-86. -/
def i2vPayload (cfg : Config) (prompt img_url : String) : Payload :=
  { model := cfg.WAN_MODEL_I2V
    input := { prompt := prompt, img_url := some img_url }
    parameters :=
      { resolution := some cfg.WAN_RESOLUTION
        size := none
        prompt_extend := cfg.WAN_PROMPT_EXTEND
        duration := cfg.WAN_DURATION
        shot_type := cfg.WAN_SHOT_TYPE } }

/-- The T2V payload built at wan_video.py lines 90-101. -/
def t2vPayload (cfg : Config) (prompt : String) : Payload :=
  { model := cfg.WAN_MODEL_T2V
    input := { prompt := prompt, img_url := none }
    parameters :=
      { resolution := none
        size := some cfg.WAN_SIZE
        prompt_extend := cfg.WAN_PROMPT_EXTEND
        duration := cfg.WAN_DURATION
        shot_type := cfg.WAN_SHOT_TYPE } }

/-- Result of one HTTP round trip: the parsed JSON body, or a raised
transport exception carrying its message. -/
inductive FetchResult
  | ok (r : ApiResponse)
  | err (e : String)
  deriving DecidableEq, Repr

/-- Observable behaviour of one `generate_video` call: the value returned or
exception raised, and the request body posted to the network (none when no
network call was made). -/
structure SubmitTrace where
  result : Except String ApiResponse
  posted : Option Payload
  deriving DecidableEq, Repr

/-- Payload construction of `generate_video` (wan_video.py lines 63-102):
the I2V shape when `image_input` is truthy — resolving a local file through
the encoder, passing `data:` URIs and anything else through unchanged — and
the T2V shape otherwise. -/
def builtPayload (cfg : Config) (prompt : String) (image_input : Option String)
    (fileExists : String → Bool) (encodeImage : String → String) : Payload :=
  if isTruthy image_input then
    let img := image_input.getD ""
    let img_url :=
      if fileExists img then encodeImage img
      else if img.startsWith "data:" then img
      else img
    i2vPayload cfg prompt img_url
  else
    t2vPayload cfg prompt

/-- Embedding of `generate_video` (wan_video.py lines 46-111).
`fileExists` models `os.path.exists`, `encodeImage` models
`encode_image_to_base64`, and `transport` is the outcome of the one
`requests.post`. -/
def generate_video (apiKey : Option String) (cfg : Config) (prompt : String)
    (image_input : Option String) (fileExists : String → Bool)
    (encodeImage : String → String) (transport : FetchResult) : SubmitTrace :=
  if !(isTruthy apiKey) then
    { result := .error "WAN_API_KEY is not set in .env", posted := none }
  else
    { result :=
        match transport with
        | .ok r => .ok r
        | .err e => .error e
      posted := some (builtPayload cfg prompt image_input fileExists encodeImage) }

/-- Observable behaviour of one `check_status` call: the value returned or
exception raised, and the URL of the `GET` request made (`none` when no
network call was made). -/
structure StatusTrace where
  result : Except String ApiResponse
  requested : Option String
  deriving DecidableEq, Repr

/-- Embedding of `check_status` (wan_video.py lines 114-131); `transport` is
the outcome of the one `requests.get`. -/
def check_status (apiKey : Option String) (task_id : String)
    (transport : FetchResult) : StatusTrace :=
  if !(isTruthy apiKey) then
    { result := .error "WAN_API_KEY is not set in .env", requested := none }
  else
    let url := API_BASE_URL ++ "/tasks/" ++ task_id
    match transport with
    | .ok r => { result := .ok r, requested := some url }
    | .err e => { result := .error e, requested := some url }

/-- Terminal test of the polling loop, mirroring the if/elif chain at
wan_video.py lines 156-165: the loop returns on `SUCCEEDED`, on `FAILED`,
and on any status outside `["PENDING", "RUNNING"]`. -/
def isTerminal (status : String) : Bool :=
  if status == "SUCCEEDED" then true
  else if status == "FAILED" then true
  else if !(status == "PENDING" || status == "RUNNING") then true
  else false

/-- Outcome of the polling loop on a finite fetch script: normal return of
the final response after `ticks` fetches, or an exception raised on fetch
number `ticks`. -/
inductive PollOutcome
  | finished (ticks : Nat) (final : ApiResponse)
  | raised (ticks : Nat) (e : String)
  deriving DecidableEq, Repr

/-- Embedding of `wait_for_completion` (wan_video.py lines 134-167) run
against a finite script of fetch outcomes, one per tick. Each tick calls
`check_status`; an exception from it propagates (the loop body has no
try/except). `none` means the script was exhausted with the loop still
running. -/
def wait_for_completion (apiKey : Option String) (task_id : String) :
    List FetchResult → Option PollOutcome
  | [] => none
  | t :: rest =>
    match (check_status apiKey task_id t).result with
    | .error e => some (.raised 1 e)
    | .ok result =>
      if isTerminal (statusOf result) then some (.finished 1 result)
      else
        match wait_for_completion apiKey task_id rest with
        | some (.finished n f) => some (.finished (n + 1) f)
        | some (.raised n e) => some (.raised (n + 1) e)
        | none => none

/-- Embedding of `os.makedirs(d, exist_ok=ok)` on a filesystem given as the
list of existing directories: raises `FileExistsError` when the directory
exists and `exist_ok` is false. -/
def makedirs (fs : List String) (d : String) (exist_ok : Bool) :
    Except String (List String) :=
  if d ∈ fs then
    if exist_ok then .ok fs else .error "FileExistsError"
  else .ok (d :: fs)

/-- The auto-generated output filename of wan_video.py line 186. -/
def defaultOutputName (timestamp : String) : String :=
  "wan_video_" ++ timestamp ++ ".mp4"

/-- Embedding of `download_video` (wan_video.py lines 170-198): creates the
output directory (`exist_ok=True`), picks the destination path (an
auto-generated timestamped name when none is supplied), then performs the
download. Returns the filesystem after the call together with the saved path
or the raised exception; `transportOk` is false when the artifact `GET`
fails (`raise_for_status`). -/
def download_video (fs : List String) (outputDir timestamp _video_url : String)
    (output_path : Option String) (transportOk : Bool) :
    List String × Except String String :=
  match makedirs fs outputDir true with
  | .error e => (fs, .error e)
  | .ok fs1 =>
    let path :=
      match output_path with
      | none => outputDir ++ "/" ++ defaultOutputName timestamp
      | some p => p
    if transportOk then (fs1, .ok path) else (fs1, .error "HTTPError")

/-- Value produced by one `run` call: the returned path-or-`None`, a raised
exception, or divergence (the poll script ran out with the loop still
going). -/
inductive RunOutcome
  | returned (path : Option String)
  | raised (e : String)
  | diverged
  deriving DecidableEq, Repr

/-- Observable behaviour of one `run` call: its outcome, whether the
submission `POST` was made, how many poll fetches happened, and whether
`download_video` was invoked. -/
structure RunTrace where
  outcome : RunOutcome
  submitCalled : Bool
  pollTicks : Nat
  downloadCalled : Bool
  deriving DecidableEq, Repr

/-- Embedding of `run` (wan_video.py lines 201-247): submit via
`generate_video`, bail out returning `None` when the response lacks
`output.task_id`, otherwise poll with `wait_for_completion`, and download
exactly when the final status is `SUCCEEDED` and `video_url` is truthy. -/
def run (apiKey : Option String) (cfg : Config) (prompt : String)
    (image_input : Option String) (fileExists : String → Bool)
    (encodeImage : String → String) (submitTransport : FetchResult)
    (pollScript : List FetchResult) (fs : List String) (timestamp : String)
    (downloadOk : Bool) : RunTrace :=
  let sub := generate_video apiKey cfg prompt image_input fileExists encodeImage
    submitTransport
  match sub.result with
  | .error e =>
    { outcome := .raised e, submitCalled := sub.posted.isSome, pollTicks := 0
      downloadCalled := false }
  | .ok result =>
    match result.output with
    | none =>
      { outcome := .returned none, submitCalled := true, pollTicks := 0
        downloadCalled := false }
    | some o =>
      match o.task_id with
      | none =>
        { outcome := .returned none, submitCalled := true, pollTicks := 0
          downloadCalled := false }
      | some task_id =>
        match wait_for_completion apiKey task_id pollScript with
        | none =>
          { outcome := .diverged, submitCalled := true
            pollTicks := pollScript.length, downloadCalled := false }
        | some (.raised n e) =>
          { outcome := .raised e, submitCalled := true, pollTicks := n
            downloadCalled := false }
        | some (.finished n fin) =>
          if (getOutput fin).task_status == some "SUCCEEDED" then
            if isTruthy (getOutput fin).video_url then
              match download_video fs cfg.WAN_OUTPUT_DIR timestamp
                  ((getOutput fin).video_url.getD "") none downloadOk with
              | (_, .ok path) =>
                { outcome := .returned (some path), submitCalled := true
                  pollTicks := n, downloadCalled := true }
              | (_, .error e) =>
                { outcome := .raised e, submitCalled := true, pollTicks := n
                  downloadCalled := true }
            else
              { outcome := .returned none, submitCalled := true, pollTicks := n
                downloadCalled := false }
          else
            { outcome := .returned none, submitCalled := true, pollTicks := n
              downloadCalled := false }

/-- Scripted response with status `PENDING`. -/
def pendingResp : ApiResponse :=
  { output := some { task_status := some "PENDING", task_id := none
                     video_url := none, message := none } }

/-- Scripted response with status `RUNNING`. -/
def runningResp : ApiResponse :=
  { output := some { task_status := some "RUNNING", task_id := none
                     video_url := none, message := none } }

/-- Scripted response with status `SUCCEEDED` and artifact location `loc`. -/
def succeededResp (loc : String) : ApiResponse :=
  { output := some { task_status := some "SUCCEEDED", task_id := none
                     video_url := some loc, message := none } }

/-- Scripted response with status `SUCCEEDED` and no `video_url`. -/
def succeededNoUrlResp : ApiResponse :=
  { output := some { task_status := some "SUCCEEDED", task_id := none
                     video_url := none, message := none } }

/-- Scripted response with status `FAILED` and error detail `detail`. -/
def failedResp (detail : String) : ApiResponse :=
  { output := some { task_status := some "FAILED", task_id := none
                     video_url := none, message := some detail } }

/-- Scripted submission response carrying `output.task_id`. -/
def submittedResp (tid : String) : ApiResponse :=
  { output := some { task_status := none, task_id := some tid
                     video_url := none, message := none } }

/-! Helper lemmas shared by several claims. -/

/-- Bumping the tick count of a poll outcome by `k`, as prepending `k`
consumed non-terminal responses does. -/
def bumpTicks (k : Nat) : PollOutcome → PollOutcome
  | .finished n f => .finished (k + n) f
  | .raised n e => .raised (k + n) e

theorem check_status_ok (key : Option String) (tid : String) (r : ApiResponse)
    (hkey : isTruthy key = true) :
    check_status key tid (.ok r)
      = { result := .ok r, requested := some (API_BASE_URL ++ "/tasks/" ++ tid) } := by
  simp [check_status, hkey]

theorem check_status_err (key : Option String) (tid : String) (e : String)
    (hkey : isTruthy key = true) :
    check_status key tid (.err e)
      = { result := .error e, requested := some (API_BASE_URL ++ "/tasks/" ++ tid) } := by
  simp [check_status, hkey]

theorem isTerminal_not_nonterminal (s : String) (h : isTerminal s = true) :
    s ≠ "PENDING" ∧ s ≠ "RUNNING" := by
  constructor <;> rintro rfl <;> exact absurd h (by decide)

/-- The polling loop walks through a prefix of non-terminal responses,
one fetch per element, and behaves on the remaining script as it would from
the start, with tick counts shifted by the length of the prefix. -/
theorem wait_for_completion_append (key : Option String) (tid : String)
    (init : List ApiResponse) (rest : List FetchResult)
    (hkey : isTruthy key = true)
    (hpre : ∀ x ∈ init, isTerminal (statusOf x) = false) :
    wait_for_completion key tid (init.map FetchResult.ok ++ rest)
      = (wait_for_completion key tid rest).map (bumpTicks init.length) := by
  induction init with
  | nil =>
    simp only [List.map_nil, List.nil_append, List.length_nil]
    cases h : wait_for_completion key tid rest with
    | none => simp
    | some o => cases o <;> simp [bumpTicks]
  | cons x init ih =>
    have hx : isTerminal (statusOf x) = false := hpre x (by simp)
    have hrest : ∀ y ∈ init, isTerminal (statusOf y) = false :=
      fun y hy => hpre y (by simp [hy])
    simp only [List.map_cons, List.cons_append, wait_for_completion,
      check_status_ok key tid x hkey, hx, Bool.false_eq_true, if_false,
      List.append_eq]
    rw [ih hrest]
    cases h : wait_for_completion key tid rest with
    | none => simp
    | some o =>
      cases o <;> simp [bumpTicks] <;> omega

/-- Shared helper: on a script of non-terminal responses followed by one
terminal response, the loop consumes every element and returns the terminal
response. -/
theorem wait_for_completion_finishes (key : Option String) (tid : String)
    (init : List ApiResponse) (final : ApiResponse)
    (hkey : isTruthy key = true)
    (hpre : ∀ x ∈ init, isTerminal (statusOf x) = false)
    (hterm : isTerminal (statusOf final) = true) :
    wait_for_completion key tid ((init ++ [final]).map FetchResult.ok)
      = some (.finished (init.length + 1) final) := by
  rw [List.map_append, wait_for_completion_append key tid init _ hkey hpre]
  simp [wait_for_completion, check_status_ok key tid final hkey, hterm, bumpTicks]

theorem string_append_assoc (a b c : String) : a ++ b ++ c = a ++ (b ++ c) := by
  cases a with
  | mk da =>
    cases b with
    | mk db =>
      cases c with
      | mk dc =>
        show String.mk (da ++ db ++ dc) = String.mk (da ++ (db ++ dc))
        rw [List.append_assoc]

/-- C1: on a finite fetch script whose non-final responses are all
non-terminal and whose final response is terminal (`SUCCEEDED`, `FAILED`, or
any status outside `PENDING`/`RUNNING`), `wait_for_completion` performs
exactly one fetch per element, returns the final response unchanged, and the
status it returns on is never `PENDING` or `RUNNING`. -/
theorem pollLoop_terminal_script (key : Option String) (tid : String)
    (init : List ApiResponse) (final : ApiResponse)
    (hkey : isTruthy key = true)
    (hpre : ∀ x ∈ init, isTerminal (statusOf x) = false)
    (hterm : isTerminal (statusOf final) = true) :
    wait_for_completion key tid ((init ++ [final]).map FetchResult.ok)
        = some (.finished (init.length + 1) final)
      ∧ statusOf final ≠ "PENDING" ∧ statusOf final ≠ "RUNNING" := by
  exact ⟨wait_for_completion_finishes key tid init final hkey hpre hterm,
    isTerminal_not_nonterminal _ hterm⟩

/-- C1 witness: on the scripted sequence
`[Pending, Running, Succeeded(location = "https://v.example/out.mp4")]` the
loop ticks exactly three times and returns the `SUCCEEDED` response, whose
artifact location is `"https://v.example/out.mp4"`. -/
theorem pollLoop_terminal_script_witness :
    wait_for_completion (some "k") "tid"
        (([pendingResp, runningResp] ++ [succeededResp "https://v.example/out.mp4"]).map
          FetchResult.ok)
        = some (.finished 3 (succeededResp "https://v.example/out.mp4"))
      ∧ (getOutput (succeededResp "https://v.example/out.mp4")).video_url
        = some "https://v.example/out.mp4" := by
  refine ⟨?_, by decide⟩
  have h := pollLoop_terminal_script (some "k") "tid" [pendingResp, runningResp]
    (succeededResp "https://v.example/out.mp4") (by decide) (by decide) (by decide)
  exact h.1

/-- C2 counterexample: with the scripted fetches
`[transport error "ConnectionError", Succeeded]` the loop aborts on tick 1
with the propagated exception; the fetch is not retried and the loop does
not continue to the second scripted response. -/
theorem pollLoop_transport_cex :
    wait_for_completion (some "k") "tid"
        [FetchResult.err "ConnectionError", FetchResult.ok (succeededResp "L")]
        = some (.raised 1 "ConnectionError")
      ∧ wait_for_completion (some "k") "tid"
          [FetchResult.err "ConnectionError", FetchResult.ok (succeededResp "L")]
        ≠ some (.finished 2 (succeededResp "L")) := by
  constructor <;> decide

/-- C2 amended: a network-level transport failure on a poll tick does not
make the loop terminate in `Failed` or `Unrecognized`, but neither is it
retried: `check_status` raises, the loop body has no try/except, so the
exception propagates out of `wait_for_completion` on that very tick and the
remaining script is never consumed. -/
theorem pollLoop_transport_propagates (key : Option String) (tid : String)
    (init : List ApiResponse) (e : String) (rest : List FetchResult)
    (hkey : isTruthy key = true)
    (hpre : ∀ x ∈ init, isTerminal (statusOf x) = false) :
    wait_for_completion key tid
        (init.map FetchResult.ok ++ FetchResult.err e :: rest)
      = some (.raised (init.length + 1) e) := by
  rw [wait_for_completion_append key tid init _ hkey hpre]
  simp [wait_for_completion, check_status_err key tid e hkey, bumpTicks]

/-- C2 amended witness: after one `PENDING` response, a `ConnectionError`
on tick 2 propagates, regardless of what the script holds afterwards. -/
theorem pollLoop_transport_propagates_witness :
    wait_for_completion (some "k") "tid"
        ([pendingResp].map FetchResult.ok
          ++ FetchResult.err "ConnectionError"
            :: [FetchResult.ok (succeededResp "L")])
      = some (.raised 2 "ConnectionError") :=
  pollLoop_transport_propagates (some "k") "tid" [pendingResp] "ConnectionError"
    [FetchResult.ok (succeededResp "L")] (by decide) (by decide)

theorem generate_video_ok (key : Option String) (cfg : Config) (prompt : String)
    (image_input : Option String) (fileExists : String → Bool)
    (encodeImage : String → String) (r : ApiResponse)
    (hkey : isTruthy key = true) :
    generate_video key cfg prompt image_input fileExists encodeImage (.ok r)
      = { result := .ok r
          posted := some (builtPayload cfg prompt image_input fileExists encodeImage) } := by
  simp [generate_video, hkey]

/-- C3 counterexample: with a credential configured and an empty prompt,
`generate_video` posts the T2V payload (whose `input.prompt` is the empty
string) to the network and returns the service response — there is no
`InvalidInput` failure and the network call is made. -/
theorem emptyPrompt_submits_cex :
    (generate_video (some "k") defaultConfig "" none (fun _ => false) (fun s => s)
        (FetchResult.ok (submittedResp "t1"))).posted
      = some (t2vPayload defaultConfig "")
    ∧ (generate_video (some "k") defaultConfig "" none (fun _ => false) (fun s => s)
        (FetchResult.ok (submittedResp "t1"))).result
      = Except.ok (submittedResp "t1") := by
  constructor <;> rfl

/-- C3 amended: `generate_video` performs no validation of the prompt; with
a credential configured, a call with an empty prompt still makes the network
call, submitting a payload whose `input.prompt` is the empty string. The
only local fail-fast check is the missing-credential one. -/
theorem generate_video_no_prompt_validation (key : Option String) (cfg : Config)
    (image_input : Option String) (fileExists : String → Bool)
    (encodeImage : String → String) (t : FetchResult)
    (hkey : isTruthy key = true) :
    ∃ p, (generate_video key cfg "" image_input fileExists encodeImage t).posted
        = some p
      ∧ p.input.prompt = "" := by
  refine ⟨builtPayload cfg "" image_input fileExists encodeImage, ?_, ?_⟩
  · simp [generate_video, hkey]
  · cases h : isTruthy image_input <;>
      simp [builtPayload, h, i2vPayload, t2vPayload]

/-- C3 amended witness: concrete empty-prompt submission with a configured
credential. -/
theorem generate_video_no_prompt_validation_witness :
    ∃ p, (generate_video (some "k") defaultConfig "" none (fun _ => false) (fun s => s)
        (FetchResult.ok (submittedResp "t1"))).posted = some p
      ∧ p.input.prompt = "" :=
  generate_video_no_prompt_validation (some "k") defaultConfig none (fun _ => false)
    (fun s => s) (FetchResult.ok (submittedResp "t1")) (by decide)

/-- C6 counterexample: with `image_input` the empty string, the media
reference is set (`isSome`), yet the payload `generate_video` posts is the
T2V one and its mode is `TextToMedia` — the mode is selected by Python
truthiness, not by mere presence. -/
theorem mode_presence_cex :
    (some "" : Option String).isSome = true
    ∧ (generate_video (some "k") defaultConfig "p" (some "") (fun _ => false)
        (fun s => s) (FetchResult.ok (submittedResp "t1"))).posted
      = some (t2vPayload defaultConfig "p")
    ∧ payloadMode (t2vPayload defaultConfig "p") = Mode.TextToMedia := by
  exact ⟨rfl, rfl, rfl⟩

/-- C6 amended: for every built job specification, the mode is
`MediaToMedia` (payload with `input.img_url`) iff the media reference is
truthy — set and non-empty; truthiness of `image_input` is the sole rule
selecting the mode, and building then inspecting the payload preserves
this iff. -/
theorem mode_iff_truthy_reference (key : Option String) (cfg : Config)
    (prompt : String) (image_input : Option String) (fileExists : String → Bool)
    (encodeImage : String → String) (t : FetchResult)
    (hkey : isTruthy key = true) :
    ∃ p, (generate_video key cfg prompt image_input fileExists encodeImage t).posted
        = some p
      ∧ (payloadMode p = Mode.MediaToMedia ↔ isTruthy image_input = true) := by
  refine ⟨builtPayload cfg prompt image_input fileExists encodeImage, ?_, ?_⟩
  · simp [generate_video, hkey]
  · cases h : isTruthy image_input <;>
      simp [builtPayload, h, i2vPayload, t2vPayload, payloadMode]

/-- C6 amended witness: a concrete non-empty media reference yields the
`MediaToMedia` payload. -/
theorem mode_iff_truthy_reference_witness :
    ∃ p, (generate_video (some "k") defaultConfig "p" (some "img.png")
        (fun _ => false) (fun s => s)
        (FetchResult.ok (submittedResp "t1"))).posted = some p
      ∧ (payloadMode p = Mode.MediaToMedia ↔ isTruthy (some "img.png") = true) :=
  mode_iff_truthy_reference (some "k") defaultConfig "p" (some "img.png")
    (fun _ => false) (fun s => s) (FetchResult.ok (submittedResp "t1")) (by decide)

/-- C4: when the submission response lacks `output.task_id` (no `output`
object, or one without the field), `run` returns `None` — a failure value,
not a path — performs zero poll fetches, and never invokes the downloader,
whatever the poll script holds. -/
theorem run_no_taskid_no_poll (key : Option String) (cfg : Config)
    (prompt : String) (image_input : Option String) (fileExists : String → Bool)
    (encodeImage : String → String) (resp : ApiResponse)
    (pollScript : List FetchResult) (fs : List String) (timestamp : String)
    (downloadOk : Bool)
    (hkey : isTruthy key = true)
    (hnoid : resp.output.bind Output.task_id = none) :
    run key cfg prompt image_input fileExists encodeImage (.ok resp) pollScript
        fs timestamp downloadOk
      = { outcome := .returned none, submitCalled := true, pollTicks := 0
          downloadCalled := false } := by
  simp only [run,
    generate_video_ok key cfg prompt image_input fileExists encodeImage resp hkey]
  cases ho : resp.output with
  | none => rfl
  | some o =>
    rw [ho] at hnoid
    have htid : o.task_id = none := hnoid
    simp [htid]

/-- C4 witness: a submission response whose `output` object has no
`task_id` yields `None` with zero poll ticks, even though the poll script
scripts a successful job. -/
theorem run_no_taskid_no_poll_witness :
    run (some "k") defaultConfig "p" none (fun _ => false) (fun s => s)
        (FetchResult.ok pendingResp) [FetchResult.ok (succeededResp "L")]
        [] "ts" true
      = { outcome := .returned none, submitCalled := true, pollTicks := 0
          downloadCalled := false } :=
  run_no_taskid_no_poll (some "k") defaultConfig "p" none (fun _ => false)
    (fun s => s) pendingResp [FetchResult.ok (succeededResp "L")] [] "ts" true
    (by decide) (by decide)

/-- C5 counterexample: two runs whose poll scripts end in `FAILED` responses
with different diagnostic details produce identical results — `run` returns
the bare `None` both times, so the value it returns carries no diagnostic
detail. -/
theorem run_failed_detail_cex :
    run (some "k") defaultConfig "p" none (fun _ => false) (fun s => s)
        (FetchResult.ok (submittedResp "t1"))
        ([pendingResp, failedResp "quota exceeded"].map FetchResult.ok)
        [] "ts" true
      = run (some "k") defaultConfig "p" none (fun _ => false) (fun s => s)
          (FetchResult.ok (submittedResp "t1"))
          ([pendingResp, failedResp "a different detail"].map FetchResult.ok)
          [] "ts" true
    ∧ (run (some "k") defaultConfig "p" none (fun _ => false) (fun s => s)
        (FetchResult.ok (submittedResp "t1"))
        ([pendingResp, failedResp "quota exceeded"].map FetchResult.ok)
        [] "ts" true).outcome
      = RunOutcome.returned none := by
  exact ⟨rfl, rfl⟩

/-- C5 amended: when the poll loop ends in a terminal state other than
`SUCCEEDED` (`FAILED` or an unrecognized status), `run` returns `None` — a
failure value carrying no diagnostic detail (the detail lives in the final
response of the loop and in the printed output) — never a download path, and the
downloader is never invoked; the loop ticks once per scripted response. -/
theorem run_nonsuccess_returns_none (key : Option String) (cfg : Config)
    (prompt : String) (image_input : Option String) (fileExists : String → Bool)
    (encodeImage : String → String) (o : Output) (tid : String)
    (init : List ApiResponse) (final : ApiResponse) (fs : List String)
    (timestamp : String) (downloadOk : Bool)
    (hkey : isTruthy key = true)
    (htid : o.task_id = some tid)
    (hpre : ∀ x ∈ init, isTerminal (statusOf x) = false)
    (hterm : isTerminal (statusOf final) = true)
    (hnots : ((getOutput final).task_status == some "SUCCEEDED") = false) :
    run key cfg prompt image_input fileExists encodeImage
        (.ok { output := some o }) ((init ++ [final]).map FetchResult.ok)
        fs timestamp downloadOk
      = { outcome := .returned none, submitCalled := true
          pollTicks := init.length + 1, downloadCalled := false } := by
  simp only [run,
    generate_video_ok key cfg prompt image_input fileExists encodeImage _ hkey,
    htid, wait_for_completion_finishes key tid init final hkey hpre hterm, hnots]
  simp

/-- C5 amended witness: on `[Pending, Failed("quota exceeded")]` the loop
ticks twice, the final response carries the detail, and `run` returns `None`
without downloading. -/
theorem run_nonsuccess_returns_none_witness :
    run (some "k") defaultConfig "p" none (fun _ => false) (fun s => s)
        (.ok { output := some { task_status := none, task_id := some "t1"
                                video_url := none, message := none } })
        (([pendingResp] ++ [failedResp "quota exceeded"]).map FetchResult.ok)
        [] "ts" true
      = { outcome := .returned none, submitCalled := true, pollTicks := 2
          downloadCalled := false }
    ∧ (getOutput (failedResp "quota exceeded")).message = some "quota exceeded" :=
  ⟨run_nonsuccess_returns_none (some "k") defaultConfig "p" none (fun _ => false)
    (fun s => s) _ "t1" [pendingResp] (failedResp "quota exceeded") [] "ts" true
    (by decide) (by decide) (by decide) (by decide) (by decide), by decide⟩

/-- C7: with no explicit destination, `download_video` succeeds, creates the
output directory, and saves to an auto-generated filename under that
directory containing the timestamp token; a second call on the resulting
filesystem succeeds identically (directory creation is idempotent). -/
theorem download_default_path (fs : List String) (dir ts url : String) :
    ∃ fs1 path,
      download_video fs dir ts url none true = (fs1, Except.ok path)
      ∧ path = dir ++ "/" ++ defaultOutputName ts
      ∧ (∃ pre post, path = pre ++ ts ++ post)
      ∧ dir ∈ fs1
      ∧ download_video fs1 dir ts url none true = (fs1, Except.ok path) := by
  refine ⟨if dir ∈ fs then fs else dir :: fs, dir ++ "/" ++ defaultOutputName ts,
    ?_, rfl, ⟨dir ++ "/" ++ "wan_video_", ".mp4", ?_⟩, ?_, ?_⟩
  · by_cases h : dir ∈ fs <;> simp [download_video, makedirs, h]
  · rw [defaultOutputName, ← string_append_assoc, ← string_append_assoc]
  · by_cases h : dir ∈ fs <;> simp [h]
  · have hmem : dir ∈ (if dir ∈ fs then fs else dir :: fs) := by
      by_cases h : dir ∈ fs <;> simp [h]
    simp [download_video, makedirs, hmem]

/-- C8: with no API credential configured (unset, or set to the falsy empty
string), both `generate_video` and `check_status` raise the
`WAN_API_KEY is not set in .env` error before any network call is made: no
payload is posted and no status URL is requested. -/
theorem missing_credential_fails_fast (key : Option String) (cfg : Config)
    (prompt : String) (image_input : Option String) (fileExists : String → Bool)
    (encodeImage : String → String) (t1 t2 : FetchResult) (tid : String)
    (hkey : isTruthy key = false) :
    generate_video key cfg prompt image_input fileExists encodeImage t1
        = { result := .error "WAN_API_KEY is not set in .env", posted := none }
      ∧ check_status key tid t2
        = { result := .error "WAN_API_KEY is not set in .env", requested := none } := by
  constructor <;> simp [generate_video, check_status, hkey]

/-- C8 witness: concrete unset credential. -/
theorem missing_credential_fails_fast_witness :
    generate_video none defaultConfig "p" none (fun _ => false) (fun s => s)
        (FetchResult.ok (submittedResp "t1"))
        = { result := .error "WAN_API_KEY is not set in .env", posted := none }
      ∧ check_status none "t1" (FetchResult.ok pendingResp)
        = { result := .error "WAN_API_KEY is not set in .env", requested := none } :=
  missing_credential_fails_fast none defaultConfig "p" none (fun _ => false)
    (fun s => s) (FetchResult.ok (submittedResp "t1"))
    (FetchResult.ok pendingResp) "t1" (by decide)

/-- C9: `download_video` creates the configured output directory on every
call, even when an explicit destination path is supplied; the resulting
filesystem is exactly the input with the output directory added (nothing
else is touched), and it is identical to the filesystem produced when no
destination is supplied. -/
theorem download_creates_dir_always (fs : List String) (dir ts url p : String)
    (tOk : Bool) :
    (download_video fs dir ts url (some p) tOk).1
        = (if dir ∈ fs then fs else dir :: fs)
      ∧ dir ∈ (download_video fs dir ts url (some p) tOk).1
      ∧ (download_video fs dir ts url (some p) tOk).1
        = (download_video fs dir ts url none tOk).1 := by
  by_cases h : dir ∈ fs <;> cases tOk <;> simp [download_video, makedirs, h]

/-- C10: when the poll loop ends `SUCCEEDED` but the `video_url` of the final
response is absent (or empty, hence falsy), `run` returns `None` and the
downloader is never invoked — the orchestrator does not assume that
`SUCCEEDED` implies an artifact location. -/
theorem run_succeeded_no_url_no_download (key : Option String) (cfg : Config)
    (prompt : String) (image_input : Option String) (fileExists : String → Bool)
    (encodeImage : String → String) (o : Output) (tid : String)
    (init : List ApiResponse) (final : ApiResponse) (fs : List String)
    (timestamp : String) (downloadOk : Bool)
    (hkey : isTruthy key = true)
    (htid : o.task_id = some tid)
    (hpre : ∀ x ∈ init, isTerminal (statusOf x) = false)
    (hsucc : (getOutput final).task_status = some "SUCCEEDED")
    (hurl : isTruthy (getOutput final).video_url = false) :
    run key cfg prompt image_input fileExists encodeImage
        (.ok { output := some o }) ((init ++ [final]).map FetchResult.ok)
        fs timestamp downloadOk
      = { outcome := .returned none, submitCalled := true
          pollTicks := init.length + 1, downloadCalled := false } := by
  have hterm : isTerminal (statusOf final) = true := by
    simp [statusOf, hsucc, isTerminal]
  simp only [run,
    generate_video_ok key cfg prompt image_input fileExists encodeImage _ hkey,
    htid, wait_for_completion_finishes key tid init final hkey hpre hterm,
    hsucc, hurl]
  simp

/-- C10 witness: a `SUCCEEDED` final response with no `video_url` ends a
run in `None` without a download. -/
theorem run_succeeded_no_url_no_download_witness :
    run (some "k") defaultConfig "p" none (fun _ => false) (fun s => s)
        (.ok { output := some { task_status := none, task_id := some "t1"
                                video_url := none, message := none } })
        (([pendingResp] ++ [succeededNoUrlResp]).map FetchResult.ok)
        [] "ts" true
      = { outcome := .returned none, submitCalled := true, pollTicks := 2
          downloadCalled := false } :=
  run_succeeded_no_url_no_download (some "k") defaultConfig "p" none
    (fun _ => false) (fun s => s) _ "t1" [pendingResp] succeededNoUrlResp [] "ts"
    true (by decide) (by decide) (by decide) (by decide) (by decide)

end WanVideo
